import Mathlib

/-!
Shallow embedding of the `pinocchio-escrow` Solana program
(src/pinocchio-escrow/src): processor dispatch, the Make / Accept / Refund
instruction validators (`try_from`) and processors (`process`), and the
`Escrow` record layout.

Modelling conventions:
* public keys and program ids are abstract `Nat` identifiers;
* `find_program_address` is an external hash; every definition that calls it
  takes it as an explicit parameter `fpa : Fpa` (seed list and program id in,
  derived address and bump out);
* cross-program invocations (system-program account creation, associated
  token account creation, token transfer, token close) do not execute: each
  operation returns the ordered list of invocations it issues (`ExtCall`)
  next to its `Except` result, so "no transfer happened before the error" is
  the statement that the emitted list is empty;
* an account's byte buffer is kept at the two abstraction levels the program
  reads it at: `dataLen` for the size checks, `stored` for the bytes
  reinterpreted as an `Escrow` record (bytemuck succeeds exactly when
  `dataLen = Escrow.LEN`), and `tokenAmount` for the bytes reinterpreted as a
  token account's balance field;
* instruction payload bytes are modelled exactly, as lists of `Nat` bytes,
  since the Make argument decoding is byte-order sensitive.
-/

namespace PinocchioEscrow

/-- A byte string (instruction payload). -/
abbrev Bytes := List Nat

/-- Little-endian value of a byte list, as in `u64::from_le_bytes`. -/
def fromLeBytes (bs : Bytes) : Nat :=
  bs.foldr (fun b acc => b + 256 * acc) 0

/-- Big-endian value of a byte list, as in `u64::from_be_bytes`. -/
def fromBeBytes (bs : Bytes) : Nat :=
  bs.foldl (fun acc b => 256 * acc + b) 0

/-- `ProgramError` variants the program can return (processor.rs and the
three instruction modules). -/
inductive ProgramError where
  | IncorrectProgramId
  | NotEnoughAccountKeys
  | MissingRequiredSignature
  | InvalidAccountOwner
  | InvalidAccountData
  | InvalidInstructionData
  | UninitializedAccount
  | AccountAlreadyInitialized
  deriving DecidableEq, Repr

/-- The program's own id (`declare_id!` in lib.rs), abstract. -/
def crateID : Nat := 1

/-- `pinocchio_token::ID`, abstract. -/
def tokenProgID : Nat := 2

/-- `pinocchio_associated_token_account::ID`, abstract. -/
def ataProgID : Nat := 3

/-- The system program id, abstract. -/
def systemProgID : Nat := 4

/-- `pinocchio_token::state::Mint::LEN`. -/
def Mint.LEN : Nat := 82

/-- `pinocchio_token::state::TokenAccount::LEN`. -/
def TokenAccount.LEN : Nat := 165

/-- The escrow record, state/escrow.rs: maker, the two mint addresses, the
amount of token Y to receive, and the stored derivation bump. -/
structure Escrow where
  maker : Nat
  mintX : Nat
  mintY : Nat
  receive : Nat
  bump : Nat
  deriving DecidableEq, Repr

/-- `Escrow::LEN = 32 + 32 + 32 + 8 + 1` (packed, no padding). -/
def Escrow.LEN : Nat := 32 + 32 + 32 + 8 + 1

/-- The record all of whose bytes are zero. -/
def Escrow.zeroed : Escrow := ⟨0, 0, 0, 0, 0⟩

/-- The slice of an `AccountInfo` the program reads: address, owning
program, signer flag, data size, lamport balance, and the data bytes viewed
as an `Escrow` record (`stored`, meaningful when `dataLen = Escrow.LEN`) and
as a token account balance (`tokenAmount`). -/
structure AccountInfo where
  key : Nat
  owner : Nat
  isSigner : Bool
  dataLen : Nat
  lamports : Nat
  stored : Escrow
  tokenAmount : Nat
  deriving DecidableEq, Repr

/-- One seed of a program-address derivation. -/
inductive Seed where
  | lit : String → Seed
  | key : Nat → Seed
  | byte : Nat → Seed
  deriving DecidableEq, Repr

/-- The type of `find_program_address`: seeds and program id to derived
address and bump. Kept abstract as a parameter of every definition that
derives addresses. -/
abbrev Fpa := List Seed → Nat → Nat × Nat

/-- A cross-program invocation issued by the program: system-program account
creation, associated-token-account creation, token transfer, token account
close, or a token set-authority (part of the token interface; listed so that
"the program never changes a token account's authority" is expressible). -/
inductive ExtCall where
  | createAccount (source dest : Nat) (lamports space : Nat) (owner : Nat)
  | createAta (funding account wallet mint : Nat)
  | transfer (source dest authority : Nat) (amount : Nat)
  | closeAccount (account destination authority : Nat)
  | setAuthority (account newAuthority authority : Nat)
  deriving DecidableEq, Repr

/-- Whether a call is a token set-authority instruction. -/
def ExtCall.isSetAuthority : ExtCall → Bool
  | .setAuthority _ _ _ => true
  | _ => false

/-! ## Make (offer.rs) -/

/-- The accounts of the Make instruction, offer.rs. -/
structure MakeOfferAccounts where
  maker : AccountInfo
  escrow : AccountInfo
  mintX : AccountInfo
  mintY : AccountInfo
  makerAtaX : AccountInfo
  vault : AccountInfo
  systemProgram : AccountInfo
  tokenProgram : AccountInfo
  deriving DecidableEq, Repr

/-- `MakeOfferAccounts::try_from`: destructure exactly nine accounts, check
the maker signature, the two mint owners and sizes, and that `maker_ata_x`
is the associated token account of (maker, token program, mint_x). The
escrow and vault addresses are not compared to anything here. -/
def MakeOfferAccounts.tryFrom (fpa : Fpa) (accounts : List AccountInfo) :
    Except ProgramError MakeOfferAccounts :=
  match accounts with
  | [maker, escrow, mintX, mintY, makerAtaX, vault, systemProgram, tokenProgram, _] =>
    if maker.isSigner = false then
      .error .MissingRequiredSignature
    else if mintX.owner ≠ tokenProgID ∨ mintY.owner ≠ tokenProgID then
      .error .InvalidAccountOwner
    else if mintX.dataLen ≠ Mint.LEN ∨ mintY.dataLen ≠ Mint.LEN then
      .error .InvalidAccountOwner
    else if (fpa [.key maker.key, .key tokenProgID, .key mintX.key] ataProgID).1
        ≠ makerAtaX.key then
      .error .InvalidAccountData
    else
      .ok ⟨maker, escrow, mintX, mintY, makerAtaX, vault, systemProgram, tokenProgram⟩
  | _ => .error .NotEnoughAccountKeys

/-- The Make arguments: the receive amount of token Y and the deposit
amount of token X. -/
structure MakeOfferArgs where
  receive : Nat
  amount : Nat
  deriving DecidableEq, Repr

/-- `MakeOfferArgs::try_from`: the payload must be exactly 16 bytes;
`receive` is `u64::from_le_bytes(data[8..16])`, `amount` is
`u64::from_be_bytes(data[0..8])`; a zero `amount` is rejected. -/
def MakeOfferArgs.tryFrom (data : Bytes) : Except ProgramError MakeOfferArgs :=
  if data.length ≠ 16 then
    .error .InvalidInstructionData
  else if fromBeBytes (data.take 8) = 0 then
    .error .InvalidInstructionData
  else
    .ok ⟨fromLeBytes (data.drop 8), fromBeBytes (data.take 8)⟩

/-- The fully validated Make instruction. -/
structure MakeOfferInstruction where
  accounts : MakeOfferAccounts
  data : MakeOfferArgs
  bump : Nat
  deriving DecidableEq, Repr

/-- `MakeOfferInstruction::try_from`: validate accounts and arguments, then
derive the escrow address (only the bump of the derivation is kept; the
derived address itself is not compared to the supplied escrow account), and
issue the record-account creation and the vault associated-token-account
creation, the latter with the escrow account as the wallet/authority. -/
def MakeOfferInstruction.tryFrom (fpa : Fpa) (rentMin : Nat → Nat)
    (data : Bytes) (accounts : List AccountInfo) :
    List ExtCall × Except ProgramError MakeOfferInstruction :=
  match MakeOfferAccounts.tryFrom fpa accounts with
  | .error e => ([], .error e)
  | .ok accs =>
    match MakeOfferArgs.tryFrom data with
    | .error e => ([], .error e)
    | .ok args =>
      let derived := fpa [.lit "escrow", .key accs.maker.key, .key accs.mintX.key] crateID
      ([ .createAccount accs.maker.key accs.escrow.key (rentMin Escrow.LEN) Escrow.LEN crateID,
         .createAta accs.maker.key accs.vault.key accs.escrow.key accs.mintX.key ],
       .ok ⟨accs, args, derived.2⟩)

/-- Effect of the successful system-program `CreateAccount` call issued in
`MakeOfferInstruction::try_from`: the escrow account now has exactly
`Escrow::LEN` zeroed bytes of data. -/
def MakeOfferInstruction.afterCreate (ix : MakeOfferInstruction) : MakeOfferInstruction :=
  { ix with accounts :=
    { ix.accounts with escrow :=
      { ix.accounts.escrow with dataLen := Escrow.LEN, stored := Escrow.zeroed } } }

/-- `MakeOfferInstruction::process`: reinterpret the escrow account data as
an `Escrow` record (bytemuck: fails unless the size is exactly
`Escrow::LEN`), populate it, and transfer `amount` of token X from the
maker's token account to the vault with the maker as authority. Returns the
record as written. -/
def MakeOfferInstruction.process (ix : MakeOfferInstruction) :
    List ExtCall × Except ProgramError Escrow :=
  if ix.accounts.escrow.dataLen ≠ Escrow.LEN then
    ([], .error .InvalidAccountData)
  else
    ([ .transfer ix.accounts.makerAtaX.key ix.accounts.vault.key
         ix.accounts.maker.key ix.data.amount ],
     .ok ⟨ix.accounts.maker.key, ix.accounts.mintX.key, ix.accounts.mintY.key,
          ix.data.receive, ix.bump⟩)

/-- The whole Make operation: `try_from` then `process`, with the
create-account effect on the escrow account's data size applied in between.
Returns all issued invocations in order and the record written on success. -/
def makeRun (fpa : Fpa) (rentMin : Nat → Nat) (data : Bytes)
    (accounts : List AccountInfo) : List ExtCall × Except ProgramError Escrow :=
  match MakeOfferInstruction.tryFrom fpa rentMin data accounts with
  | (c, .error e) => (c, .error e)
  | (c, .ok ix) =>
    let p := ix.afterCreate.process
    (c ++ p.1, p.2)

/-! ## Accept (accept.rs) -/

/-- The accounts of the AcceptOffer instruction, accept.rs. -/
structure AcceptOfferAccounts where
  taker : AccountInfo
  maker : AccountInfo
  escrow : AccountInfo
  mintX : AccountInfo
  mintY : AccountInfo
  vault : AccountInfo
  takerAtaX : AccountInfo
  takerAtaY : AccountInfo
  makerAtaY : AccountInfo
  systemProgram : AccountInfo
  tokenProgram : AccountInfo
  deriving DecidableEq, Repr

/-- `AcceptOfferAccounts::try_from`: destructure exactly twelve accounts,
check the taker signature, that the escrow account is owned by this program
and has exactly `Escrow::LEN` bytes, the two mint owners and sizes, and that
`taker_ata_y` is the associated token account of (taker, token program,
mint_y). The escrow address itself is not compared to its derivation, and
the vault is not checked at all. -/
def AcceptOfferAccounts.tryFrom (fpa : Fpa) (accounts : List AccountInfo) :
    Except ProgramError AcceptOfferAccounts :=
  match accounts with
  | [taker, maker, escrow, mintX, mintY, vault, takerAtaX, takerAtaY, makerAtaY,
     systemProgram, tokenProgram, _] =>
    if taker.isSigner = false then
      .error .MissingRequiredSignature
    else if escrow.owner ≠ crateID then
      .error .InvalidAccountOwner
    else if escrow.dataLen ≠ Escrow.LEN then
      .error .InvalidAccountData
    else if mintX.owner ≠ tokenProgID ∨ mintY.owner ≠ tokenProgID then
      .error .InvalidAccountOwner
    else if mintX.dataLen ≠ Mint.LEN ∨ mintY.dataLen ≠ Mint.LEN then
      .error .InvalidAccountOwner
    else if (fpa [.key taker.key, .key tokenProgID, .key mintY.key] ataProgID).1
        ≠ takerAtaY.key then
      .error .InvalidAccountData
    else
      .ok ⟨taker, maker, escrow, mintX, mintY, vault, takerAtaX, takerAtaY,
           makerAtaY, systemProgram, tokenProgram⟩
  | _ => .error .NotEnoughAccountKeys

/-- The fully validated AcceptOffer instruction. -/
structure AcceptOfferInstruction where
  accounts : AcceptOfferAccounts
  deriving DecidableEq, Repr

/-- `AcceptOfferInstruction::try_from`: validate the accounts, check that
`taker_ata_x` and `maker_ata_y` are token-program-owned and are the
associated token accounts of (taker, mint_x) and (maker, mint_y), then
create either of them that does not yet have a token account's size. The
second creation reuses the first one's account, wallet and mint parameters
exactly as the source does. -/
def AcceptOfferInstruction.tryFrom (fpa : Fpa) (accounts : List AccountInfo) :
    List ExtCall × Except ProgramError AcceptOfferInstruction :=
  match AcceptOfferAccounts.tryFrom fpa accounts with
  | .error e => ([], .error e)
  | .ok accs =>
    if accs.takerAtaX.owner ≠ tokenProgID ∨ accs.makerAtaY.owner ≠ tokenProgID then
      ([], .error .InvalidAccountOwner)
    else if (fpa [.key accs.taker.key, .key tokenProgID, .key accs.mintX.key] ataProgID).1
        ≠ accs.takerAtaX.key then
      ([], .error .InvalidAccountData)
    else if (fpa [.key accs.maker.key, .key tokenProgID, .key accs.mintY.key] ataProgID).1
        ≠ accs.makerAtaY.key then
      ([], .error .InvalidAccountData)
    else
      let c1 : List ExtCall :=
        if accs.takerAtaX.dataLen ≠ TokenAccount.LEN then
          [.createAta accs.taker.key accs.takerAtaX.key accs.taker.key accs.mintX.key]
        else []
      let c2 : List ExtCall :=
        if accs.makerAtaY.dataLen ≠ TokenAccount.LEN then
          [.createAta accs.taker.key accs.takerAtaX.key accs.taker.key accs.mintX.key]
        else []
      (c1 ++ c2, .ok ⟨accs⟩)

/-- `AcceptOfferInstruction::process`: reinterpret the escrow data as an
`Escrow` record, transfer `receive` of token Y from the taker to the maker
with the taker as authority, transfer the vault's lamport balance from the
vault to the taker's token-X account with the escrow account as authority,
and close the vault to the maker with the escrow account as authority. The
escrow account's own lamports then move to the maker directly (not an
invocation). -/
def AcceptOfferInstruction.process (ix : AcceptOfferInstruction) :
    List ExtCall × Except ProgramError Unit :=
  if ix.accounts.escrow.dataLen ≠ Escrow.LEN then
    ([], .error .InvalidAccountData)
  else
    let esc := ix.accounts.escrow.stored
    ([ .transfer ix.accounts.takerAtaY.key ix.accounts.makerAtaY.key
         ix.accounts.taker.key esc.receive,
       .transfer ix.accounts.vault.key ix.accounts.takerAtaX.key
         ix.accounts.escrow.key ix.accounts.vault.lamports,
       .closeAccount ix.accounts.vault.key ix.accounts.maker.key
         ix.accounts.escrow.key ],
     .ok ())

/-- The whole Accept operation: `try_from` then `process`. -/
def acceptRun (fpa : Fpa) (accounts : List AccountInfo) :
    List ExtCall × Except ProgramError Unit :=
  match AcceptOfferInstruction.tryFrom fpa accounts with
  | (c, .error e) => (c, .error e)
  | (c, .ok ix) =>
    let p := ix.process
    (c ++ p.1, p.2)

/-! ## Refund (refund.rs) -/

/-- The accounts of the Refund instruction, refund.rs. -/
structure RefundAccounts where
  maker : AccountInfo
  escrow : AccountInfo
  mintX : AccountInfo
  makerAtaX : AccountInfo
  vault : AccountInfo
  systemProgram : AccountInfo
  tokenProgram : AccountInfo
  deriving DecidableEq, Repr

/-- `RefundAccounts::try_from`: destructure exactly seven accounts, check
the maker signature, the escrow account's owner, the mint owner and size,
that the escrow account data is non-empty, that `maker_ata_x` is the
associated token account of (maker, token program, mint_x), and that the
vault is the associated token account of (escrow, token program, mint_x). -/
def RefundAccounts.tryFrom (fpa : Fpa) (accounts : List AccountInfo) :
    Except ProgramError RefundAccounts :=
  match accounts with
  | [maker, escrow, mintX, makerAtaX, vault, systemProgram, tokenProgram] =>
    if maker.isSigner = false then
      .error .MissingRequiredSignature
    else if escrow.owner ≠ crateID then
      .error .InvalidAccountOwner
    else if mintX.owner ≠ tokenProgID then
      .error .InvalidAccountOwner
    else if mintX.dataLen ≠ Mint.LEN then
      .error .InvalidAccountData
    else if escrow.dataLen = 0 then
      .error .UninitializedAccount
    else if (fpa [.key maker.key, .key tokenProgID, .key mintX.key] ataProgID).1
        ≠ makerAtaX.key then
      .error .InvalidAccountData
    else if (fpa [.key escrow.key, .key tokenProgID, .key mintX.key] ataProgID).1
        ≠ vault.key then
      .error .InvalidAccountData
    else
      .ok ⟨maker, escrow, mintX, makerAtaX, vault, systemProgram, tokenProgram⟩
  | _ => .error .NotEnoughAccountKeys

/-- The fully validated Refund instruction. -/
structure RefundInstruction where
  accounts : RefundAccounts
  bump : Nat
  deriving DecidableEq, Repr

/-- `RefundInstruction::try_from`: validate the accounts, derive the escrow
address from ("escrow", maker, mint_x), and reject unless the supplied
escrow account is exactly the derived address. -/
def RefundInstruction.tryFrom (fpa : Fpa) (accounts : List AccountInfo) :
    Except ProgramError RefundInstruction :=
  match RefundAccounts.tryFrom fpa accounts with
  | .error e => .error e
  | .ok accs =>
    if accs.escrow.key
        ≠ (fpa [.lit "escrow", .key accs.maker.key, .key accs.mintX.key] crateID).1 then
      .error .InvalidAccountData
    else
      .ok ⟨accs, (fpa [.lit "escrow", .key accs.maker.key, .key accs.mintX.key] crateID).2⟩

/-- `RefundInstruction::process`: transfer the vault's lamport balance from
the vault to the maker's token-X account with the mint_x account as the
authority, and close the vault to the maker with the escrow account as
authority. The escrow account's own lamports then move to the maker
directly (not an invocation). Issues these invocations unconditionally. -/
def RefundInstruction.process (ix : RefundInstruction) : List ExtCall :=
  [ .transfer ix.accounts.vault.key ix.accounts.makerAtaX.key
      ix.accounts.mintX.key ix.accounts.vault.lamports,
    .closeAccount ix.accounts.vault.key ix.accounts.maker.key
      ix.accounts.escrow.key ]

/-- The whole Refund operation: `try_from` then `process`. -/
def refundRun (fpa : Fpa) (accounts : List AccountInfo) :
    List ExtCall × Except ProgramError Unit :=
  match RefundInstruction.tryFrom fpa accounts with
  | .error e => ([], .error e)
  | .ok ix => (ix.process, .ok ())

/-! ## Processor (processor.rs) -/

/-- `process_instruction`: reject a wrong program id, split the first byte
of the instruction data and dispatch on it (0 = Make, 1 = Accept,
2 = Refund). The match result is bound to `_` and dropped, and the function
ends in `Ok(())`: an error produced by a `process()` step or by the default
arm (unknown selector or empty data) is discarded, while a `try_from` error
still propagates through the `?` operator inside the arm. -/
def process_instruction (fpa : Fpa) (rentMin : Nat → Nat) (programId : Nat)
    (accounts : List AccountInfo) (instructionData : Bytes) :
    List ExtCall × Except ProgramError Unit :=
  if programId ≠ crateID then
    ([], .error .IncorrectProgramId)
  else
    match instructionData with
    | [] => ([], .ok ())
    | d :: rest =>
      if d = 0 then
        match MakeOfferInstruction.tryFrom fpa rentMin rest accounts with
        | (c, .error e) => (c, .error e)
        | (c, .ok ix) =>
          let p := ix.afterCreate.process
          (c ++ p.1, .ok ())
      else if d = 1 then
        match AcceptOfferInstruction.tryFrom fpa accounts with
        | (c, .error e) => (c, .error e)
        | (c, .ok ix) =>
          let p := ix.process
          (c ++ p.1, .ok ())
      else if d = 2 then
        match RefundInstruction.tryFrom fpa accounts with
        | .error e => ([], .error e)
        | .ok ix => (ix.process, .ok ())
      else
        ([], .ok ())

/-! ## Concrete fixtures

Concrete account states and derivation functions used to evaluate the
operations at specific inputs. Key assignment: taker 10, maker 11, escrow
12, mint_x 13, mint_y 14, vault 15, maker_ata_x 16, taker_ata_x 17,
taker_ata_y 18, maker_ata_y 19. -/

/-- A non-signing account with the given key, owner, data size, lamports
and token balance, holding a zeroed record. -/
def acct (key owner dataLen lamports tokenAmount : Nat) : AccountInfo :=
  ⟨key, owner, false, dataLen, lamports, Escrow.zeroed, tokenAmount⟩

/-- The same with the signer flag set. -/
def signerAcct (key owner dataLen lamports tokenAmount : Nat) : AccountInfo :=
  ⟨key, owner, true, dataLen, lamports, Escrow.zeroed, tokenAmount⟩

/-- A derivation function under which maker_ata_x (16) and the vault (15)
are the associated token accounts the Make and Refund validators expect,
and the escrow record address derives to 77 — distinct from the supplied
escrow account 12. -/
def fpaMismatch : Fpa := fun seeds pid =>
  match pid, seeds with
  | 3, [.key 11, .key 2, .key 13] => (16, 0)
  | 3, [.key 12, .key 2, .key 13] => (15, 0)
  | 1, [.lit "escrow", .key 11, .key 13] => (77, 255)
  | _, _ => (0, 0)

/-- A derivation function under which every address the three validators
recompute agrees with the supplied accounts, and the escrow record address
derives to exactly 12 with bump 254. -/
def fpaMatch : Fpa := fun seeds pid =>
  match pid, seeds with
  | 3, [.key 11, .key 2, .key 13] => (16, 0)
  | 3, [.key 12, .key 2, .key 13] => (15, 0)
  | 3, [.key 10, .key 2, .key 13] => (17, 0)
  | 3, [.key 10, .key 2, .key 14] => (18, 0)
  | 3, [.key 11, .key 2, .key 14] => (19, 0)
  | 1, [.lit "escrow", .key 11, .key 13] => (12, 254)
  | _, _ => (0, 0)

/-- A constant rent schedule for concrete evaluation. -/
def rentFixed : Nat → Nat := fun _ => 5

/-- Make account list for an open namespace: fresh escrow and vault. -/
def makeAccountsFresh : List AccountInfo :=
  [ signerAcct 11 systemProgID 0 1000 0,   -- maker
    acct 12 systemProgID 0 0 0,            -- escrow (not yet created)
    acct 13 tokenProgID Mint.LEN 0 0,      -- mint_x
    acct 14 tokenProgID Mint.LEN 0 0,      -- mint_y
    acct 16 tokenProgID TokenAccount.LEN 0 500,  -- maker_ata_x
    acct 15 systemProgID 0 0 0,            -- vault (not yet created)
    acct systemProgID systemProgID 0 0 0,  -- system program
    acct tokenProgID systemProgID 0 0 0,   -- token program
    acct 99 systemProgID 0 0 0 ]           -- trailing account

/-- An occupied escrow record account: already program-owned with
`Escrow::LEN` bytes of data. -/
def occupiedEscrow : AccountInfo := acct 12 crateID Escrow.LEN 5 0

/-- Make account list where the record and custody storage already hold
data: the escrow account already has `Escrow::LEN` program-owned bytes and
the vault already is a token account with a balance. -/
def makeAccountsOccupied : List AccountInfo :=
  [ signerAcct 11 systemProgID 0 1000 0,
    occupiedEscrow,
    acct 13 tokenProgID Mint.LEN 0 0,
    acct 14 tokenProgID Mint.LEN 0 0,
    acct 16 tokenProgID TokenAccount.LEN 0 500,
    acct 15 tokenProgID TokenAccount.LEN 5 100,
    acct systemProgID systemProgID 0 0 0,
    acct tokenProgID systemProgID 0 0 0,
    acct 99 systemProgID 0 0 0 ]

/-- A 16-byte Make payload: deposit 7 (big-endian bytes 0..8), receive 0
(bytes 8..16). -/
def payloadDeposit7Receive0 : Bytes :=
  [0, 0, 0, 0, 0, 0, 0, 7, 0, 0, 0, 0, 0, 0, 0, 0]

/-- An open escrow record account: owned by this program, `Escrow::LEN`
bytes, storing the record of maker 11, mint_x 13, mint_y 14, receive 50,
bump 254. -/
def escrowOpenAcct : AccountInfo := ⟨12, crateID, false, Escrow.LEN, 5, ⟨11, 13, 14, 50, 254⟩, 0⟩

/-- The open vault: a token account whose token balance (100) differs from
its lamport balance (5, the rent). -/
def vaultOpenAcct : AccountInfo := ⟨15, tokenProgID, false, TokenAccount.LEN, 5, Escrow.zeroed, 100⟩

/-- Accept account list for the open trade. -/
def acceptAccountsOpen : List AccountInfo :=
  [ signerAcct 10 systemProgID 0 1000 0,        -- taker
    acct 11 systemProgID 0 0 0,                 -- maker
    escrowOpenAcct,                             -- escrow
    acct 13 tokenProgID Mint.LEN 0 0,           -- mint_x
    acct 14 tokenProgID Mint.LEN 0 0,           -- mint_y
    vaultOpenAcct,                              -- vault
    acct 17 tokenProgID TokenAccount.LEN 0 0,   -- taker_ata_x
    acct 18 tokenProgID TokenAccount.LEN 0 60,  -- taker_ata_y
    acct 19 tokenProgID TokenAccount.LEN 0 0,   -- maker_ata_y
    acct systemProgID systemProgID 0 0 0,
    acct tokenProgID systemProgID 0 0 0,
    acct 99 systemProgID 0 0 0 ]

/-- Accept account list after the trade settled: the record and custody
accounts were reclaimed by the runtime (zero data, system-program owner). -/
def acceptAccountsSettled : List AccountInfo :=
  [ signerAcct 10 systemProgID 0 1000 0,
    acct 11 systemProgID 0 0 0,
    acct 12 systemProgID 0 0 0,                 -- escrow, reclaimed
    acct 13 tokenProgID Mint.LEN 0 0,
    acct 14 tokenProgID Mint.LEN 0 0,
    acct 15 systemProgID 0 0 0,                 -- vault, reclaimed
    acct 17 tokenProgID TokenAccount.LEN 0 100,
    acct 18 tokenProgID TokenAccount.LEN 0 10,
    acct 19 tokenProgID TokenAccount.LEN 0 50,
    acct systemProgID systemProgID 0 0 0,
    acct tokenProgID systemProgID 0 0 0,
    acct 99 systemProgID 0 0 0 ]

/-- Refund account list after the trade settled: record and custody
reclaimed by the runtime. -/
def refundAccountsSettled : List AccountInfo :=
  [ signerAcct 11 systemProgID 0 0 0,
    acct 12 systemProgID 0 0 0,
    acct 13 tokenProgID Mint.LEN 0 0,
    acct 16 tokenProgID TokenAccount.LEN 0 500,
    acct 15 systemProgID 0 0 0,
    acct systemProgID systemProgID 0 0 0,
    acct tokenProgID systemProgID 0 0 0 ]

/-- Refund account list for the open trade. -/
def refundAccountsOpen : List AccountInfo :=
  [ signerAcct 11 systemProgID 0 0 0,           -- maker
    escrowOpenAcct,                             -- escrow
    acct 13 tokenProgID Mint.LEN 0 0,           -- mint_x
    acct 16 tokenProgID TokenAccount.LEN 0 500, -- maker_ata_x
    vaultOpenAcct,                              -- vault
    acct systemProgID systemProgID 0 0 0,
    acct tokenProgID systemProgID 0 0 0 ]

/-! ## Theorems -/

/-- C1: `process_instruction` was claimed to return an invalid-argument
error on an unknown selector byte or empty instruction data and to
propagate every processing failure. The code binds the dispatch result to
`_` and ends in `Ok(())`, so both an unknown selector (here 9) and empty
instruction data make the call report success. -/
theorem process_instruction_ok_on_bad_dispatch :
    process_instruction (fun _ _ => (0, 0)) rentFixed crateID [] [9]
      = ([], .ok ())
    ∧ process_instruction (fun _ _ => (0, 0)) rentFixed crateID [] []
      = ([], .ok ()) := by
  constructor <;> rfl

/-- C8 counterexample: the Make payload is not one unsigned 64-bit amount.
A 16-byte payload is accepted — and its two halves, byte-for-byte equal,
decode to different numbers (amount big-endian 1, receive little-endian
2^56) — while the 8-byte payload of a single u64 is rejected as malformed. -/
theorem make_payload_not_single_word :
    MakeOfferArgs.tryFrom
        [0, 0, 0, 0, 0, 0, 0, 1, 0, 0, 0, 0, 0, 0, 0, 1]
      = .ok ⟨72057594037927936, 1⟩
    ∧ MakeOfferArgs.tryFrom [0, 0, 0, 0, 0, 0, 0, 1]
      = .error .InvalidInstructionData := by
  constructor <;> rfl

/-- C2 counterexample: Make does not reject a non-derived record address.
Under `fpaMismatch` the record address derives to 77, yet supplying escrow
account 12 passes the whole Make validation with no AddressMismatch — the
operation proceeds through account creation and performs the deposit
transfer. -/
theorem make_accepts_nonderived_record_address :
    (fpaMismatch [.lit "escrow", .key 11, .key 13] crateID).1 = 77
    ∧ makeRun fpaMismatch rentFixed payloadDeposit7Receive0 makeAccountsFresh
      = ([ .createAccount 11 12 (rentFixed Escrow.LEN) Escrow.LEN crateID,
           .createAta 11 15 12 13,
           .transfer 16 15 11 7 ],
         .ok ⟨11, 13, 14, 0, 255⟩) := by
  constructor <;> rfl

/-- C3: on a successful Accept, the amount moved out of the custody account
is the vault's lamport balance (5, the rent deposit), not its asset-X token
balance (100): the second transfer of the run carries amount 5 while the
vault's token balance is 100. -/
theorem accept_moves_vault_lamports_not_token_balance :
    acceptRun fpaMatch acceptAccountsOpen
      = ([ .transfer 18 19 10 50,
           .transfer 15 17 12 5,
           .closeAccount 15 11 12 ],
         .ok ())
    ∧ vaultOpenAcct.tokenAmount = 100
    ∧ vaultOpenAcct.lamports = 5 := by
  refine ⟨?_, rfl, rfl⟩
  rfl

/-- C4: on a successful Refund, the custody-to-maker transfer presents the
mint_x account (key 13) as its authority, not the escrow record account
(key 12): the run's transfer call carries authority 13 while the escrow
record's address is 12. -/
theorem refund_transfer_authority_is_mint_account :
    refundRun fpaMatch refundAccountsOpen
      = ([ .transfer 15 16 13 5,
           .closeAccount 15 11 12 ],
         .ok ())
    ∧ escrowOpenAcct.key = 12
    ∧ refundAccountsOpen.get ⟨2, by decide⟩ = acct 13 tokenProgID Mint.LEN 0 0 := by
  refine ⟨?_, rfl, rfl⟩
  rfl

/-- C5 counterexample: a second Accept on a settled trade (record and
custody storage reclaimed: zero data, system-program owner) fails with
InvalidAccountOwner at the record owner check, not with
UninitializedAccount — the owner check precedes any initialization check,
and Accept has no Uninitialized check at all. No invocation is issued. -/
theorem second_accept_fails_with_owner_error :
    acceptRun fpaMatch acceptAccountsSettled = ([], .error .InvalidAccountOwner)
    ∧ ProgramError.InvalidAccountOwner ≠ ProgramError.UninitializedAccount := by
  refine ⟨rfl, by decide⟩

/-- C6 counterexample: Make against an already-occupied derivation
namespace (the escrow account already holds `Escrow::LEN` program-owned
bytes, the vault already is a live token account) passes validation with no
AlreadyInitialized error: the run reissues account creation and the deposit
transfer and reports success. -/
theorem make_accepts_occupied_namespace :
    occupiedEscrow.dataLen ≠ 0
    ∧ makeRun fpaMatch rentFixed payloadDeposit7Receive0 makeAccountsOccupied
      = ([ .createAccount 11 12 (rentFixed Escrow.LEN) Escrow.LEN crateID,
           .createAta 11 15 12 13,
           .transfer 16 15 11 7 ],
         .ok ⟨11, 13, 14, 0, 254⟩) := by
  refine ⟨by decide, ?_⟩
  rfl

/-- Helper: a successful Refund account validation pins the maker token
account and the vault to their associated-token-account derivations. -/
lemma refundAccounts_tryFrom_ok (fpa : Fpa) (accounts : List AccountInfo)
    (accs : RefundAccounts) (h : RefundAccounts.tryFrom fpa accounts = .ok accs) :
    accs.makerAtaX.key
      = (fpa [.key accs.maker.key, .key tokenProgID, .key accs.mintX.key] ataProgID).1
    ∧ accs.vault.key
      = (fpa [.key accs.escrow.key, .key tokenProgID, .key accs.mintX.key] ataProgID).1 := by
  unfold RefundAccounts.tryFrom at h
  repeat' split at h
  any_goals exact Except.noConfusion h
  injection h with h
  subst h
  simp_all

/-- C2 amended: only Refund re-derives and checks the record and custody
addresses. A successful Refund validation forces the supplied escrow
account to be exactly the address derived from ("escrow", maker, mint_x)
and the supplied vault and maker token accounts to be exactly their
associated-token-account derivations; a validation failure aborts the run
with the error and no invocation — in particular no transfer — issued.
(Make compares neither the record nor the custody address to a derivation,
and Accept checks the record only by owner and size: see the
counterexample.) -/
theorem refund_rejects_nonderived_addresses (fpa : Fpa) (accounts : List AccountInfo) :
    (∀ ix, RefundInstruction.tryFrom fpa accounts = .ok ix →
      ix.accounts.escrow.key
        = (fpa [.lit "escrow", .key ix.accounts.maker.key, .key ix.accounts.mintX.key] crateID).1
      ∧ ix.accounts.vault.key
        = (fpa [.key ix.accounts.escrow.key, .key tokenProgID, .key ix.accounts.mintX.key] ataProgID).1
      ∧ ix.accounts.makerAtaX.key
        = (fpa [.key ix.accounts.maker.key, .key tokenProgID, .key ix.accounts.mintX.key] ataProgID).1)
    ∧ (∀ e, RefundInstruction.tryFrom fpa accounts = .error e →
        refundRun fpa accounts = ([], .error e)) := by
  constructor
  · intro ix h
    unfold RefundInstruction.tryFrom at h
    split at h
    · simp_all
    · rename_i accs heq
      split at h
      · simp_all
      · rename_i hkey
        have hfields := refundAccounts_tryFrom_ok fpa accounts accs heq
        simp only [Except.ok.injEq] at h
        subst h
        simp_all
  · intro e h
    unfold refundRun
    rw [h]

/-- C2 amended, witness: under `fpaMismatch` the open-trade Refund account
list supplies escrow account 12 while the derivation yields 77, so the run
aborts with InvalidAccountData and no invocation issued. -/
theorem refund_rejects_nonderived_addresses_witness :
    refundRun fpaMismatch refundAccountsOpen = ([], .error .InvalidAccountData) :=
  (refund_rejects_nonderived_addresses fpaMismatch refundAccountsOpen).2
    .InvalidAccountData rfl

/-- C5 amended: invoking Accept or Refund once the record account has been
reclaimed (its owner is no longer this program) fails at the record owner
check with InvalidAccountOwner, before any invocation — in particular
before any transfer. Refund reports UninitializedAccount only in the
sub-case where the record is still program-owned but has zero-length data;
Accept has no such check. -/
theorem settled_record_rejected_before_transfer :
    (∀ (fpa : Fpa) (taker maker escrow mintX mintY vault takerAtaX takerAtaY
        makerAtaY sp tp extra : AccountInfo),
      taker.isSigner = true → escrow.owner ≠ crateID →
      acceptRun fpa [taker, maker, escrow, mintX, mintY, vault, takerAtaX,
          takerAtaY, makerAtaY, sp, tp, extra]
        = ([], .error .InvalidAccountOwner))
    ∧ (∀ (fpa : Fpa) (maker escrow mintX makerAtaX vault sp tp : AccountInfo),
      maker.isSigner = true → escrow.owner ≠ crateID →
      refundRun fpa [maker, escrow, mintX, makerAtaX, vault, sp, tp]
        = ([], .error .InvalidAccountOwner))
    ∧ (∀ (fpa : Fpa) (maker escrow mintX makerAtaX vault sp tp : AccountInfo),
      maker.isSigner = true → escrow.owner = crateID → mintX.owner = tokenProgID →
      mintX.dataLen = Mint.LEN → escrow.dataLen = 0 →
      refundRun fpa [maker, escrow, mintX, makerAtaX, vault, sp, tp]
        = ([], .error .UninitializedAccount)) := by
  refine ⟨?_, ?_, ?_⟩
  · intro fpa taker maker escrow mintX mintY vault takerAtaX takerAtaY makerAtaY
      sp tp extra hsig hown
    simp [acceptRun, AcceptOfferInstruction.tryFrom, AcceptOfferAccounts.tryFrom,
      hsig, hown]
  · intro fpa maker escrow mintX makerAtaX vault sp tp hsig hown
    simp [refundRun, RefundInstruction.tryFrom, RefundAccounts.tryFrom, hsig, hown]
  · intro fpa maker escrow mintX makerAtaX vault sp tp hsig hown hmow hmlen hlen
    simp [refundRun, RefundInstruction.tryFrom, RefundAccounts.tryFrom, hsig, hown,
      hmow, hmlen, hlen]

/-- C5 amended, witness: a Refund on the reclaimed record/custody pair
fails with InvalidAccountOwner and issues nothing. -/
theorem settled_record_rejected_before_transfer_witness :
    refundRun fpaMatch refundAccountsSettled = ([], .error .InvalidAccountOwner) :=
  settled_record_rejected_before_transfer.2.1 fpaMatch
    (signerAcct 11 systemProgID 0 0 0) (acct 12 systemProgID 0 0 0)
    (acct 13 tokenProgID Mint.LEN 0 0) (acct 16 tokenProgID TokenAccount.LEN 0 500)
    (acct 15 systemProgID 0 0 0) (acct systemProgID systemProgID 0 0 0)
    (acct tokenProgID systemProgID 0 0 0) rfl (by decide)

/-- Helper: every error the Make account validation can produce. -/
lemma makeOfferAccounts_tryFrom_error (fpa : Fpa) (accounts : List AccountInfo)
    (e : ProgramError) (h : MakeOfferAccounts.tryFrom fpa accounts = .error e) :
    e ≠ .AccountAlreadyInitialized := by
  unfold MakeOfferAccounts.tryFrom at h
  repeat' split at h
  any_goals exact Except.noConfusion h
  all_goals injection h with h
  all_goals subst h
  all_goals simp

/-- Helper: every error the Make argument validation can produce. -/
lemma makeOfferArgs_tryFrom_error (data : Bytes) (e : ProgramError)
    (h : MakeOfferArgs.tryFrom data = .error e) :
    e ≠ .AccountAlreadyInitialized := by
  unfold MakeOfferArgs.tryFrom at h
  repeat' split at h
  any_goals exact Except.noConfusion h
  all_goals injection h with h
  all_goals subst h
  all_goals simp

/-- C6 amended: the Make validator contains no occupied-namespace check at
all: no Make run, whatever the accounts and arguments, ever returns
AccountAlreadyInitialized. Rejection of an occupied namespace is left
entirely to the invoked external account-creation programs. -/
theorem make_never_reports_occupied_namespace (fpa : Fpa) (rentMin : Nat → Nat)
    (data : Bytes) (accounts : List AccountInfo) :
    (makeRun fpa rentMin data accounts).2 ≠ .error .AccountAlreadyInitialized := by
  rcases hacc : MakeOfferAccounts.tryFrom fpa accounts with e | accs
  · have he := makeOfferAccounts_tryFrom_error fpa accounts e hacc
    simp [makeRun, MakeOfferInstruction.tryFrom, hacc]
    exact he
  · rcases hargs : MakeOfferArgs.tryFrom data with e | args
    · have he := makeOfferArgs_tryFrom_error data e hargs
      simp [makeRun, MakeOfferInstruction.tryFrom, hacc, hargs]
      exact he
    · simp [makeRun, MakeOfferInstruction.tryFrom, hacc, hargs,
        MakeOfferInstruction.afterCreate, MakeOfferInstruction.process]

/-- C7: a Make whose 16-byte payload carries a zero deposit amount
(big-endian bytes 0..8 all zero) is rejected with no invocation issued — no
record allocation, no custody creation, no transfer; when the account
validation itself passes, the reported error is exactly
InvalidInstructionData from the zero-amount check. -/
theorem make_zero_deposit_rejected (fpa : Fpa) (rentMin : Nat → Nat)
    (data : Bytes) (accounts : List AccountInfo)
    (hlen : data.length = 16) (hzero : fromBeBytes (data.take 8) = 0) :
    (makeRun fpa rentMin data accounts).1 = []
    ∧ (∃ e, (makeRun fpa rentMin data accounts).2 = .error e)
    ∧ (∀ accs, MakeOfferAccounts.tryFrom fpa accounts = .ok accs →
        (makeRun fpa rentMin data accounts).2 = .error .InvalidInstructionData) := by
  have hargs : MakeOfferArgs.tryFrom data = .error .InvalidInstructionData := by
    simp [MakeOfferArgs.tryFrom, hlen, hzero]
  rcases hacc : MakeOfferAccounts.tryFrom fpa accounts with e | accs
  · refine ⟨?_, ⟨e, ?_⟩, ?_⟩
    · simp [makeRun, MakeOfferInstruction.tryFrom, hacc]
    · simp [makeRun, MakeOfferInstruction.tryFrom, hacc]
    · intro accs h
      exact Except.noConfusion h
  · refine ⟨?_, ⟨.InvalidInstructionData, ?_⟩, ?_⟩
    · simp [makeRun, MakeOfferInstruction.tryFrom, hacc, hargs]
    · simp [makeRun, MakeOfferInstruction.tryFrom, hacc, hargs]
    · intro accs h
      simp [makeRun, MakeOfferInstruction.tryFrom, hacc, hargs]

/-- C7 witness: the all-zero 16-byte payload against the valid fresh Make
account list is rejected with InvalidInstructionData. -/
theorem make_zero_deposit_rejected_witness :
    (makeRun fpaMatch rentFixed (List.replicate 16 0) makeAccountsFresh).1 = []
    ∧ (∃ e, (makeRun fpaMatch rentFixed (List.replicate 16 0) makeAccountsFresh).2
        = .error e) :=
  ⟨(make_zero_deposit_rejected fpaMatch rentFixed (List.replicate 16 0)
      makeAccountsFresh (by decide) (by decide)).1,
   (make_zero_deposit_rejected fpaMatch rentFixed (List.replicate 16 0)
      makeAccountsFresh (by decide) (by decide)).2.1⟩

/-- C8 amended: the Make payload is exactly two unsigned 64-bit words in 16
bytes — any other length is rejected as malformed — and the two words use
opposite byte orders: a successful decode yields the deposit amount as the
big-endian value of bytes 0..8 (necessarily nonzero) and the receive amount
as the little-endian value of bytes 8..16. -/
theorem make_args_decode_shape (data : Bytes) :
    (data.length ≠ 16 →
      MakeOfferArgs.tryFrom data = .error .InvalidInstructionData)
    ∧ (∀ a, MakeOfferArgs.tryFrom data = .ok a →
        data.length = 16 ∧ a.amount = fromBeBytes (data.take 8)
        ∧ a.receive = fromLeBytes (data.drop 8) ∧ a.amount ≠ 0) := by
  constructor
  · intro h
    simp [MakeOfferArgs.tryFrom, h]
  · intro a h
    by_cases hl : data.length = 16
    · simp only [MakeOfferArgs.tryFrom, hl] at h
      by_cases hz : fromBeBytes (data.take 8) = 0
      · simp [hz] at h
      · simp [hz] at h
        refine ⟨hl, ?_, ?_, ?_⟩ <;> simp [← h, hz]
    · simp [MakeOfferArgs.tryFrom, hl] at h

/-- C8 amended, witness: the 16-byte payload with deposit 7 and receive 0
decodes accordingly. -/
theorem make_args_decode_shape_witness :
    payloadDeposit7Receive0.length = 16
    ∧ MakeOfferArgs.amount ⟨0, 7⟩ = fromBeBytes (payloadDeposit7Receive0.take 8)
    ∧ MakeOfferArgs.receive ⟨0, 7⟩ = fromLeBytes (payloadDeposit7Receive0.drop 8)
    ∧ MakeOfferArgs.amount ⟨0, 7⟩ ≠ 0 :=
  (make_args_decode_shape payloadDeposit7Receive0).2 ⟨0, 7⟩ rfl

/-- C9: in every run of every operation, no issued invocation is a token
set-authority instruction — so once the custody account exists, its
authority is never reassigned — and a Make validation that succeeds has
issued exactly the record creation and the custody-account creation with
the escrow record account as the custody wallet/authority. -/
theorem custody_authority_never_reassigned (fpa : Fpa) (rentMin : Nat → Nat)
    (data : Bytes) (accounts : List AccountInfo) :
    ((makeRun fpa rentMin data accounts).1.all fun c => !c.isSetAuthority) = true
    ∧ ((acceptRun fpa accounts).1.all fun c => !c.isSetAuthority) = true
    ∧ ((refundRun fpa accounts).1.all fun c => !c.isSetAuthority) = true
    ∧ (∀ ix, (MakeOfferInstruction.tryFrom fpa rentMin data accounts).2 = .ok ix →
        (MakeOfferInstruction.tryFrom fpa rentMin data accounts).1
          = [ .createAccount ix.accounts.maker.key ix.accounts.escrow.key
                (rentMin Escrow.LEN) Escrow.LEN crateID,
              .createAta ix.accounts.maker.key ix.accounts.vault.key
                ix.accounts.escrow.key ix.accounts.mintX.key ]) := by
  refine ⟨?_, ?_, ?_, ?_⟩
  · rcases hacc : MakeOfferAccounts.tryFrom fpa accounts with e | accs
    · simp [makeRun, MakeOfferInstruction.tryFrom, hacc]
    · rcases hargs : MakeOfferArgs.tryFrom data with e | args
      · simp [makeRun, MakeOfferInstruction.tryFrom, hacc, hargs]
      · simp [makeRun, MakeOfferInstruction.tryFrom, hacc, hargs,
          MakeOfferInstruction.afterCreate, MakeOfferInstruction.process,
          ExtCall.isSetAuthority]
  · rcases hacc : AcceptOfferAccounts.tryFrom fpa accounts with e | accs
    · simp [acceptRun, AcceptOfferInstruction.tryFrom, hacc]
    · by_cases hd : accs.escrow.dataLen = Escrow.LEN <;>
        simp only [acceptRun, AcceptOfferInstruction.tryFrom,
          AcceptOfferInstruction.process, hacc, hd] <;>
        split_ifs <;>
        simp [ExtCall.isSetAuthority, hd]
  · rcases hacc : RefundAccounts.tryFrom fpa accounts with e | accs
    · simp [refundRun, RefundInstruction.tryFrom, hacc]
    · simp only [refundRun, RefundInstruction.tryFrom, hacc]
      split_ifs <;>
        simp [RefundInstruction.process, ExtCall.isSetAuthority]
  · intro ix h
    rcases hacc : MakeOfferAccounts.tryFrom fpa accounts with e | accs
    · simp [MakeOfferInstruction.tryFrom, hacc] at h
    · rcases hargs : MakeOfferArgs.tryFrom data with e | args
      · simp [MakeOfferInstruction.tryFrom, hacc, hargs] at h
      · simp [MakeOfferInstruction.tryFrom, hacc, hargs] at h ⊢
        rw [← h]
        simp

/-- C9 witness: the successful fresh Make issues exactly the record and
custody creations (custody wallet = escrow account 12) before the deposit
transfer. -/
theorem custody_authority_never_reassigned_witness :
    (MakeOfferInstruction.tryFrom fpaMatch rentFixed payloadDeposit7Receive0
        makeAccountsFresh).1
      = [ .createAccount 11 12 (rentFixed Escrow.LEN) Escrow.LEN crateID,
          .createAta 11 15 12 13 ] :=
  (custody_authority_never_reassigned fpaMatch rentFixed payloadDeposit7Receive0
      makeAccountsFresh).2.2.2 _ rfl

/-- C10: Make checks only the deposit amount for being nonzero: a 16-byte
payload with nonzero deposit bytes and all-zero receive bytes passes
argument validation, and the run creates the record and custody accounts,
writes a record whose receive amount is 0, and performs the deposit
transfer. -/
theorem make_zero_receive_allowed (fpa : Fpa) (rentMin : Nat → Nat)
    (data : Bytes) (accounts : List AccountInfo) (accs : MakeOfferAccounts)
    (hacc : MakeOfferAccounts.tryFrom fpa accounts = .ok accs)
    (hlen : data.length = 16)
    (hamt : fromBeBytes (data.take 8) ≠ 0)
    (hrcv : fromLeBytes (data.drop 8) = 0) :
    makeRun fpa rentMin data accounts
      = ([ .createAccount accs.maker.key accs.escrow.key (rentMin Escrow.LEN)
             Escrow.LEN crateID,
           .createAta accs.maker.key accs.vault.key accs.escrow.key accs.mintX.key,
           .transfer accs.makerAtaX.key accs.vault.key accs.maker.key
             (fromBeBytes (data.take 8)) ],
         .ok ⟨accs.maker.key, accs.mintX.key, accs.mintY.key, 0,
              (fpa [.lit "escrow", .key accs.maker.key, .key accs.mintX.key]
                crateID).2⟩) := by
  have hargs : MakeOfferArgs.tryFrom data = .ok ⟨0, fromBeBytes (data.take 8)⟩ := by
    simp [MakeOfferArgs.tryFrom, hlen, hamt, hrcv]
  simp [makeRun, MakeOfferInstruction.tryFrom, hacc, hargs,
    MakeOfferInstruction.afterCreate, MakeOfferInstruction.process]

/-- C10 witness: deposit 7, receive 0, against the valid fresh Make account
list: the run succeeds and the written record has receive amount 0. -/
theorem make_zero_receive_allowed_witness :
    makeRun fpaMatch rentFixed payloadDeposit7Receive0 makeAccountsFresh
      = ([ .createAccount 11 12 (rentFixed Escrow.LEN) Escrow.LEN crateID,
           .createAta 11 15 12 13,
           .transfer 16 15 11 7 ],
         .ok ⟨11, 13, 14, 0, 254⟩) :=
  make_zero_receive_allowed fpaMatch rentFixed payloadDeposit7Receive0
    makeAccountsFresh _ rfl (by decide) (by decide) (by decide)

end PinocchioEscrow
